import Mathlib

/-! Verification of the COVID-19-notice bot (`src/main.py`) against its
specification.  Each of the four scheduled jobs (`today_total`,
`now_total`, `total_history`, `prediction`) is embedded as a pure
function from its inputs — the HTTP fetch result, a flag telling
whether the notification call succeeds, the wall-clock input it reads,
and the cached on-disk state it loads — to a `RunResult`: either a
normal return (`ok`) or an uncaught exception escaping the job body
(`raised`), together with the resulting on-disk state and the ordered
trace of externally visible effects (chart renders, LINE posts, file
writes).

The helper modules `communication`, `graph` and `json_operation` are
opaque collaborators: `get_requests` is the `fetch` parameter (its
exception is the `Except.error` case), `post_line` is the `Event.send`
effect gated by the `sendOk` parameter (it raises when `sendOk = false`),
`make_graph` is the `Event.render` effect, and `json_read`/`json_write`
are the state components and the `Event.write` effect.
-/

/-- One externally visible effect of a job run, in program order:
a chart render (`make_graph`), a LINE notification (`post_line`) with
its text and optional attached image, or a cache-file write
(`json_write`). -/
inductive Event where
  | render (path : String)
  | send (text : String) (image : Option String)
  | write (path : String)
deriving DecidableEq, Repr

/-- Outcome of one job invocation: `ok` when the body runs to completion,
`raised` when an uncaught exception escapes the job body.  Both carry the
on-disk state after the run and the trace of effects that happened. -/
inductive RunResult (σ : Type) where
  | ok (s : σ) (trace : List Event)
  | raised (s : σ) (trace : List Event)
deriving DecidableEq, Repr

/-- The effect trace of the run. -/
def RunResult.trace {σ : Type} : RunResult σ → List Event
  | .ok _ t => t
  | .raised _ t => t

/-- Number of cache-file writes (`json_write` calls) in a trace. -/
def writeCount : List Event → Nat
  | [] => 0
  | Event.write _ :: rest => writeCount rest + 1
  | _ :: rest => writeCount rest

/-- Holds (`true`) iff no `write` event occurs before the first `send`
event: every file write in the trace is preceded by a notification. -/
def noWriteBeforeSend : List Event → Bool
  | [] => true
  | Event.write _ :: _ => false
  | Event.send _ _ :: _ => true
  | Event.render _ :: rest => noWriteBeforeSend rest

/-- Python `f'\x7bn:+\x7d'` sign formatting: non-negative integers get an
explicit leading `+`. -/
def signedFmt (n : Int) : String :=
  if 0 ≤ n then "+" ++ toString n else toString n

/-- Whether `y` is a Gregorian leap year. -/
def isLeap (y : Nat) : Bool :=
  (y % 4 == 0 && y % 100 != 0) || y % 400 == 0

/-- Days in month `m` of year `y`. -/
def daysInMonth (y m : Nat) : Nat :=
  if m = 2 then (if isLeap y then 29 else 28)
  else if m = 4 ∨ m = 6 ∨ m = 9 ∨ m = 11 then 30
  else 31

/-- The spec's well-formedness predicate for dates (§4.2 types `date` as
an 8-digit `YYYYMMDD` integer): the restriction of
`datetime.datetime.strptime(str(n), '%Y%m%d')` to eight-digit values,
where `%Y` takes the first four digits, the middle two digits must form
a month 01–12 and the last two a valid day of that month.  On the
eight-digit range this agrees exactly with the full parser `strptimePy`
below (`strptimePy_of_strptimeYMD`); it is used as the precondition of
the well-formedness hypotheses. -/
def strptimeYMD (n : Nat) : Option (Nat × Nat × Nat) :=
  if 10000000 ≤ n ∧ n < 100000000 then
    let y := n / 10000
    let m := n / 100 % 100
    let d := n % 100
    if 1 ≤ m ∧ m ≤ 12 ∧ 1 ≤ d ∧ d ≤ daysInMonth y m then some (y, m, d)
    else none
  else none

/-- Full model of `datetime.datetime.strptime(str(n), '%Y%m%d')` on the
decimal rendering of `n` (no leading zeros, as `str` of a Python int).
CPython's `_strptime` compiles the format to the regex
`(\d\d\d\d)` for `%Y`, `(1[0-2]|0[1-9]|[1-9])` for `%m` and
`(3[01]|[12]\d|0[1-9]|[1-9])` for `%d`, takes the first match in
backtracking order (alternatives left to right, no end anchor), then
raises `ValueError` if characters remain unconsumed, and finally
validates the day against the month via the `datetime` constructor.
Worked out per digit count `L` of `n`:

* `L ≤ 4`: `%Y` or `%m` has nothing to match — `ValueError` (`none`).
* `L = 5`: after `%Y` one digit remains; any `%m` match leaves nothing
  for `%d` — no match, `none`.
* `L = 6`: the last two digits are matched as one-digit month and day,
  succeeding iff both are nonzero (single-digit days are always valid).
* `L = 7`: three digits `a b c` remain; the regex prefers a two-digit
  month (`1[0-2]` then `0[1-9]`) with one-digit day `c ≥ 1`, then a
  one-digit month `a ≥ 1` with two-digit day `3[01]`, `[12]\d` or
  `0[1-9]` (day then checked against the month); any other shape either
  leaves a digit unconsumed or matches nothing — `none`.
* `L = 8`: a two-digit month and two-digit day, exactly `strptimeYMD`;
  a one-digit month can consume at most three of the four digits, so
  every such path ends in unconverted data.
* `L ≥ 9`: at most eight digits can be consumed — `none`. -/
def strptimePy (n : Nat) : Option (Nat × Nat × Nat) :=
  if n < 100000 then none
  else if n < 1000000 then
    let a := n / 10 % 10
    let b := n % 10
    if 1 ≤ a ∧ 1 ≤ b then some (n / 100, a, b) else none
  else if n < 10000000 then
    let y := n / 1000
    let a := n / 100 % 10
    let b := n / 10 % 10
    let c := n % 10
    if a = 1 ∧ b ≤ 2 ∧ 1 ≤ c then some (y, 10 + b, c)
    else if a = 0 ∧ 1 ≤ b ∧ 1 ≤ c then some (y, b, c)
    else if 1 ≤ a ∧ b = 3 ∧ c ≤ 1 then
      (if 30 + c ≤ daysInMonth y a then some (y, a, 30 + c) else none)
    else if 1 ≤ a ∧ 1 ≤ b ∧ b ≤ 2 then
      (if 10 * b + c ≤ daysInMonth y a then some (y, a, 10 * b + c) else none)
    else if 1 ≤ a ∧ b = 0 ∧ 1 ≤ c then some (y, a, c)
    else none
  else if n < 100000000 then
    let y := n / 10000
    let m := n / 100 % 100
    let d := n % 100
    if 1 ≤ m ∧ m ≤ 12 ∧ 1 ≤ d ∧ d ≤ daysInMonth y m then some (y, m, d)
    else none
  else none

/-- Payload of `https://covid19-japan-web-api.now.sh/api/v1/total`:
the fields `main.py` reads.  `date` is an 8-digit `YYYYMMDD` integer,
the rest are counts. -/
structure TotalPayload where
  date : Nat
  positive : Int
  discharge : Int
  hospitalize : Int
  mild : Int
  severe : Int
  confirming : Int
  waiting : Int
  death : Int
deriving DecidableEq, Repr

/-- One record of the daily series `daily.json`:
`{'date': day, 'positive': difference}` as appended by `today_total`. -/
structure DailyRecord where
  date : Nat
  positive : Int
deriving DecidableEq, Repr

/-- The on-disk state read and written by `today_total`:
`save.json` (last seen payload) and `daily.json` (the daily series).
`none` models an absent file. -/
structure TodayState where
  save : Option TotalPayload
  daily : Option (List DailyRecord)
deriving DecidableEq, Repr

/-- The notification text composed by `today_total` (the f-string in
`main.py`), for parsed month `m` and day `d`, payload `body` and computed
`difference`. -/
def todayText (m d : Nat) (body : TotalPayload) (difference : Int) : String :=
  "\n" ++ toString m ++ "月" ++ toString d ++ "日\n\n☣感染者: " ++
  toString body.positive ++ "人\n(前日比: " ++ signedFmt difference ++
  ")\n  - 退院: " ++ toString body.discharge ++
  "人\n  - 入院中: " ++ toString body.hospitalize ++
  "人\n    * 軽中度・無症状: " ++ toString body.mild ++
  "人\n    * 人工呼吸・ICU: " ++ toString body.severe ++
  "人\n    * 確認中: " ++ toString body.confirming ++
  "人\n    * 待機中: " ++ toString body.waiting ++
  "人\n  - 死亡: " ++ toString body.death ++
  "人\n\nsource by: https://covid-2019.live/ "

/-- Embedding of `today_total` in `main.py`.  `fetch` is the outcome of
`get_requests` (the only call wrapped in `try`), `sendOk` tells whether
`post_line` succeeds, `s` is the on-disk state (`save.json`,
`daily.json`). -/
def today_total (fetch : Except Unit TotalPayload) (sendOk : Bool)
    (s : TodayState) : RunResult TodayState :=
  match fetch with
  | .error _ => .ok s []
  | .ok body =>
    let day := body.date
    let old_day : Option Nat := Option.map (fun p => p.date) s.save
    let difference : Int :=
      match s.save with
      | some old => body.positive - old.positive
      | none => 0
    if some day ≠ old_day then
      match strptimePy day with
      | none => .raised s []
      | some (_, m, d) =>
        let daily := (s.daily.getD []) ++ [⟨day, difference⟩]
        let text := todayText m d body difference
        if sendOk then
          .ok ⟨some body, some daily⟩
            [.render "graph_dayly.png", .send text (some "graph_dayly.png"),
             .write "daily.json", .write "save.json"]
        else
          .raised s [.render "graph_dayly.png"]
    else .ok s []

/-- The `cases` field of one element of the prefectures payload: the
remote API may deliver it as an integer or as a string; `main.py`
coerces it with `int(...)`. -/
inductive CaseVal where
  | int (n : Int)
  | str (s : String)
deriving DecidableEq, Repr

/-- The ASCII characters stripped by Python `int(str)` before parsing
(`Py_UNICODE_ISSPACE` restricted to ASCII): horizontal tab through
carriage return (0x09–0x0D), the separator controls 0x1C–0x1F, and the
space. -/
def isPySpace (c : Char) : Bool :=
  c = ' ' ∨ (9 ≤ c.toNat ∧ c.toNat ≤ 13) ∨ (28 ≤ c.toNat ∧ c.toNat ≤ 31)

/-- The digit-and-underscore tail of a Python integer literal after its
first digit (regular-expression shape `(_?\d)*` consumed to the end):
an underscore must sit between two digits (PEP 515); anything else is a
`ValueError` (`none`).  `acc` is the value of the digits read so far. -/
def pyDigitsAux : Nat → List Char → Option Nat
  | acc, [] => some acc
  | acc, '_' :: c :: rest =>
    if c.isDigit then pyDigitsAux (acc * 10 + (c.toNat - 48)) rest else none
  | acc, c :: rest =>
    if c.isDigit then pyDigitsAux (acc * 10 + (c.toNat - 48)) rest else none

/-- Model of Python `int(s)` for a string `s` of ASCII characters:
surrounding whitespace (`isPySpace`) is stripped, then an optional
single `+` or `-` sign, then at least one ASCII digit with single
underscores allowed between digits (PEP 515); anything else raises
`ValueError` (`none`).  Python additionally accepts non-ASCII decimal
digits and whitespace; strings containing such characters fall outside
this model (it returns `none` there), so statements about the raising
side are restricted to ASCII strings via `caseAscii`. -/
def pyIntStr (s : String) : Option Int :=
  let t := ((s.toList.dropWhile isPySpace).reverse.dropWhile isPySpace).reverse
  match t with
  | '-' :: c :: rest =>
    if c.isDigit then
      Option.map (fun v => -(v : Int)) (pyDigitsAux (c.toNat - 48) rest)
    else none
  | '+' :: c :: rest =>
    if c.isDigit then
      Option.map (fun v => (v : Int)) (pyDigitsAux (c.toNat - 48) rest)
    else none
  | c :: rest =>
    if c.isDigit then
      Option.map (fun v => (v : Int)) (pyDigitsAux (c.toNat - 48) rest)
    else none
  | [] => none

/-- Python `int(x)` on a `cases` value: an integer passes through, a
string goes through `pyIntStr`. -/
def pyInt : CaseVal → Option Int
  | .int n => some n
  | .str s => pyIntStr s

/-- The summation loop of `now_total`: `total_patient += int(md['cases'])`
over all elements; `none` when some coercion raises. -/
def sumCases : List CaseVal → Option Int
  | [] => some 0
  | c :: rest =>
    match pyInt c with
    | none => none
    | some n => Option.map (fun t => n + t) (sumCases rest)

/-- The on-disk state `day_before.json` of `now_total`:
`patient` is yesterday's baseline, `before` the running total last seen,
`date` the two-digit day-of-month string of the last update
(`none` on the default used when the file is absent). -/
structure DayBefore where
  patient : Int
  before : Int
  date : Option String
deriving DecidableEq, Repr

/-- The text-only notification composed by `now_total`. -/
def nowText (total difference : Int) : String :=
  "\n現在の感染者数: " ++ toString total ++ "人\n(前日比: " ++
  signedFmt difference ++ ")"

/-- Embedding of `now_total` in `main.py`.  `today` is
`datetime.datetime.now().strftime('%d')`, the current two-digit
day-of-month string; `s` is the content of `day_before.json`
(`none` when absent). -/
def now_total (fetch : Except Unit (List CaseVal)) (sendOk : Bool)
    (today : String) (s : Option DayBefore) : RunResult (Option DayBefore) :=
  match fetch with
  | .error _ => .ok s []
  | .ok body =>
    let old := s.getD ⟨0, 0, none⟩
    match sumCases body with
    | none => .raised s []
    | some total =>
      if total ≠ old.before then
        let old1 := if old.date ≠ some today then { old with patient := old.before } else old
        let difference := total - old1.patient
        if sendOk then
          .ok (some { old1 with before := total, date := some today })
            [.send (nowText total difference) none, .write "day_before.json"]
        else .raised s []
      else .ok s []

/-- Embedding of `total_history` in `main.py`.  The fetched historical
series is an opaque JSON array: element type `α` with decidable
structural equality; `s` is the content of `history.json`
(`none` when absent, in which case the code compares against `[]`). -/
def total_history {α : Type} [DecidableEq α] (fetch : Except Unit (List α))
    (sendOk : Bool) (s : Option (List α)) : RunResult (Option (List α)) :=
  match fetch with
  | .error _ => .ok s []
  | .ok body =>
    let old_body := s.getD []
    if body ≠ old_body then
      if sendOk then
        .ok (some body)
          [.render "graph.png", .send "日別感染者数の推移グラフ" (some "graph.png"),
           .write "history.json"]
      else .raised s [.render "graph.png"]
    else .ok s []

/-- Embedding of `prediction` in `main.py`: same shape as
`total_history` with its own cache file `history_prodiction.json`,
image path and caption. -/
def prediction {α : Type} [DecidableEq α] (fetch : Except Unit (List α))
    (sendOk : Bool) (s : Option (List α)) : RunResult (Option (List α)) :=
  match fetch with
  | .error _ => .ok s []
  | .ok body =>
    let old_body := s.getD []
    if body ≠ old_body then
      if sendOk then
        .ok (some body)
          [.render "graph_prodiction.png",
           .send "日別感染者数の予測グラフ" (some "graph_prodiction.png"),
           .write "history_prodiction.json"]
      else .raised s [.render "graph_prodiction.png"]
    else .ok s []

/-- When `strptimeYMD` succeeds the triple is determined by the digit
groups of `n`. -/
theorem strptimeYMD_eq_of_some (n : Nat) (v : Nat × Nat × Nat)
    (h : strptimeYMD n = some v) : v = (n / 10000, n / 100 % 100, n % 100) := by
  unfold strptimeYMD at h
  split at h
  · simp only [] at h
    split at h
    · exact (Option.some_inj.mp h).symm
    · exact absurd h (by simp)
  · exact absurd h (by simp)

/-- On its eight-digit domain the well-formedness predicate `strptimeYMD`
agrees with the full parser `strptimePy`: a date accepted by the former
is parsed identically by the latter. -/
theorem strptimePy_of_strptimeYMD (n : Nat) (v : Nat × Nat × Nat)
    (h : strptimeYMD n = some v) : strptimePy n = some v := by
  unfold strptimeYMD at h
  split at h
  · rename_i h8
    unfold strptimePy
    rw [if_neg (by omega), if_neg (by omega), if_neg (by omega),
        if_pos (by omega : n < 100000000)]
    exact h
  · exact absurd h (by simp)

/-- C3: For every job, if the HTTP fetch (`get_requests`) raises, the run
returns immediately from the `except` branch: the on-disk state is exactly
as it was before the run, and the effect trace is empty (no chart render,
no notification, no file write). -/
theorem fetch_failure_is_noop :
    (∀ (sendOk : Bool) (s : TodayState),
       today_total (Except.error ()) sendOk s = RunResult.ok s []) ∧
    (∀ (sendOk : Bool) (today : String) (s : Option DayBefore),
       now_total (Except.error ()) sendOk today s = RunResult.ok s []) ∧
    (∀ (α : Type) [DecidableEq α] (sendOk : Bool) (s : Option (List α)),
       total_history (Except.error ()) sendOk s = RunResult.ok s []) ∧
    (∀ (α : Type) [DecidableEq α] (sendOk : Bool) (s : Option (List α)),
       prediction (Except.error ()) sendOk s = RunResult.ok s []) :=
  ⟨fun _ _ => rfl, fun _ _ _ => rfl, fun _ _ _ _ => rfl, fun _ _ _ _ => rfl⟩

/-- C6: For the Total-History and Prediction jobs with a cached copy
present: a fetched payload structurally equal to the cache yields no
notification and no write (state and trace untouched); any difference
yields exactly one render, one notification and a full overwrite of the
cache with the new payload. -/
theorem history_prediction_change_detection (α : Type) [DecidableEq α]
    (body cached : List α) :
    total_history (Except.ok body) true (some cached) =
      (if body = cached then RunResult.ok (some cached) []
       else RunResult.ok (some body)
         [Event.render "graph.png",
          Event.send "日別感染者数の推移グラフ" (some "graph.png"),
          Event.write "history.json"]) ∧
    prediction (Except.ok body) true (some cached) =
      (if body = cached then RunResult.ok (some cached) []
       else RunResult.ok (some body)
         [Event.render "graph_prodiction.png",
          Event.send "日別感染者数の予測グラフ" (some "graph_prodiction.png"),
          Event.write "history_prodiction.json"]) := by
  by_cases h : body = cached <;>
    simp [total_history, prediction, h]

/-- C9: In every job and on every input, no cache-file write occurs in the
effect trace before the notification send: the `post_line` call strictly
precedes every `json_write`. -/
theorem notify_before_persist :
    (∀ (fetch : Except Unit TotalPayload) (sendOk : Bool) (s : TodayState),
       noWriteBeforeSend (today_total fetch sendOk s).trace = true) ∧
    (∀ (fetch : Except Unit (List CaseVal)) (sendOk : Bool) (today : String)
       (s : Option DayBefore),
       noWriteBeforeSend (now_total fetch sendOk today s).trace = true) ∧
    (∀ (α : Type) [DecidableEq α] (fetch : Except Unit (List α)) (sendOk : Bool)
       (s : Option (List α)),
       noWriteBeforeSend (total_history fetch sendOk s).trace = true) ∧
    (∀ (α : Type) [DecidableEq α] (fetch : Except Unit (List α)) (sendOk : Bool)
       (s : Option (List α)),
       noWriteBeforeSend (prediction fetch sendOk s).trace = true) := by
  refine ⟨?_, ?_, ?_, ?_⟩
  · intro fetch sendOk s
    cases fetch with
    | error e => rfl
    | ok body =>
      simp only [today_total]
      repeat' split
      all_goals rfl
  · intro fetch sendOk today s
    cases fetch with
    | error e => rfl
    | ok body =>
      simp only [now_total]
      repeat' split
      all_goals rfl
  · intro α inst fetch sendOk s
    cases fetch with
    | error e => rfl
    | ok body =>
      simp only [total_history]
      repeat' split
      all_goals rfl
  · intro α inst fetch sendOk s
    cases fetch with
    | error e => rfl
    | ok body =>
      simp only [prediction]
      repeat' split
      all_goals rfl

/-- Concrete cached payload used by witnesses. -/
def sampleOld : TotalPayload := ⟨20200401, 100, 1, 2, 3, 4, 5, 6, 7⟩

/-- Concrete fetched payload used by witnesses. -/
def sampleNew : TotalPayload := ⟨20200402, 130, 8, 9, 10, 11, 12, 13, 14⟩

/-- C1: For the Daily-Total job with a cached payload present and a
parseable fetched date: if the fetched date differs from the cached one,
the run appends exactly one record `(date, positive - old.positive)` to
the daily series, notifies once and overwrites both files; if the dates
are equal the run is a complete no-op (state unchanged, empty trace). -/
theorem today_total_new_day_append (old body : TotalPayload)
    (ds : List DailyRecord) (h : (strptimeYMD body.date).isSome) :
    today_total (Except.ok body) true ⟨some old, some ds⟩ =
      (if body.date = old.date then RunResult.ok ⟨some old, some ds⟩ []
       else
         RunResult.ok
           ⟨some body, some (ds ++ [⟨body.date, body.positive - old.positive⟩])⟩
           [Event.render "graph_dayly.png",
            Event.send
              (todayText (body.date / 100 % 100) (body.date % 100) body
                (body.positive - old.positive)) (some "graph_dayly.png"),
            Event.write "daily.json", Event.write "save.json"]) := by
  obtain ⟨v, hv⟩ := Option.isSome_iff_exists.mp h
  have hveq := strptimeYMD_eq_of_some _ _ hv
  subst hveq
  have hv2 := strptimePy_of_strptimeYMD _ _ hv
  by_cases hd : body.date = old.date
  · simp [today_total, hd]
  · simp [today_total, hd, hv2]

/-- Witness for C1: cached date 20200401 with positive 100, fetched date
20200402 with positive 130 — one record `(20200402, 30)` is appended. -/
theorem today_total_new_day_append_witness :
    today_total (Except.ok sampleNew) true ⟨some sampleOld, some []⟩ =
      (if sampleNew.date = sampleOld.date then
         RunResult.ok ⟨some sampleOld, some []⟩ []
       else
         RunResult.ok
           ⟨some sampleNew,
            some ([] ++ [⟨sampleNew.date, sampleNew.positive - sampleOld.positive⟩])⟩
           [Event.render "graph_dayly.png",
            Event.send
              (todayText (sampleNew.date / 100 % 100) (sampleNew.date % 100) sampleNew
                (sampleNew.positive - sampleOld.positive)) (some "graph_dayly.png"),
            Event.write "daily.json", Event.write "save.json"]) :=
  today_total_new_day_append sampleOld sampleNew [] (by decide)

/-- C7: For the Daily-Total job with no prior cached payload (`save.json`
absent), the computed difference is 0, the run takes the new-day branch,
and the record appended to the daily series is `(date, 0)` regardless of
the fetched positive count. -/
theorem today_total_no_cache_zero_delta (body : TotalPayload)
    (ds : Option (List DailyRecord)) (h : (strptimeYMD body.date).isSome) :
    today_total (Except.ok body) true ⟨none, ds⟩ =
      RunResult.ok ⟨some body, some (ds.getD [] ++ [⟨body.date, 0⟩])⟩
        [Event.render "graph_dayly.png",
         Event.send
           (todayText (body.date / 100 % 100) (body.date % 100) body 0)
           (some "graph_dayly.png"),
         Event.write "daily.json", Event.write "save.json"] := by
  obtain ⟨v, hv⟩ := Option.isSome_iff_exists.mp h
  have hveq := strptimeYMD_eq_of_some _ _ hv
  subst hveq
  have hv2 := strptimePy_of_strptimeYMD _ _ hv
  simp [today_total, hv2]

/-- Witness for C7: first-ever run on payload `sampleNew` (positive count
130) appends `(20200402, 0)`. -/
theorem today_total_no_cache_zero_delta_witness :
    today_total (Except.ok sampleNew) true ⟨none, none⟩ =
      RunResult.ok
        ⟨some sampleNew,
         some ((none : Option (List DailyRecord)).getD [] ++ [⟨sampleNew.date, 0⟩])⟩
        [Event.render "graph_dayly.png",
         Event.send
           (todayText (sampleNew.date / 100 % 100) (sampleNew.date % 100) sampleNew 0)
           (some "graph_dayly.png"),
         Event.write "daily.json", Event.write "save.json"] :=
  today_total_no_cache_zero_delta sampleNew none (by decide)

/-- C8: In every job only the HTTP fetch sits in a `try` block, so a
failure raised by the notification send terminates that run and escapes
the job body: the result is `raised`, the on-disk state is the input
state (the writes, which all come after the send, never happen), and the
trace holds only the chart render (if any) that preceded the send. -/
theorem send_failure_escapes (α : Type) [DecidableEq α]
    (body old : TotalPayload) (ds : List DailyRecord)
    (pref : List CaseVal) (t : Int) (today : String) (st : DayBefore)
    (hist cachedh prd cachedp : List α)
    (hparse : (strptimeYMD body.date).isSome)
    (hday : body.date ≠ old.date)
    (hsum : sumCases pref = some t) (hne : t ≠ st.before)
    (hh : hist ≠ cachedh) (hp : prd ≠ cachedp) :
    today_total (Except.ok body) false ⟨some old, some ds⟩ =
      RunResult.raised ⟨some old, some ds⟩ [Event.render "graph_dayly.png"] ∧
    now_total (Except.ok pref) false today (some st) =
      RunResult.raised (some st) [] ∧
    total_history (Except.ok hist) false (some cachedh) =
      RunResult.raised (some cachedh) [Event.render "graph.png"] ∧
    prediction (Except.ok prd) false (some cachedp) =
      RunResult.raised (some cachedp) [Event.render "graph_prodiction.png"] := by
  obtain ⟨v, hv⟩ := Option.isSome_iff_exists.mp hparse
  have hv2 := strptimePy_of_strptimeYMD _ _ hv
  refine ⟨?_, ?_, ?_, ?_⟩
  · simp [today_total, hday, hv2]
  · simp [now_total, hsum, hne]
  · simp [total_history, hh]
  · simp [prediction, hp]

/-- Witness for C8 at concrete inputs that put each job in its
notify branch with the send failing. -/
theorem send_failure_escapes_witness :
    today_total (Except.ok sampleNew) false ⟨some sampleOld, some []⟩ =
      RunResult.raised ⟨some sampleOld, some []⟩ [Event.render "graph_dayly.png"] ∧
    now_total (Except.ok [CaseVal.int 130]) false "02" (some ⟨80, 100, some "01"⟩) =
      RunResult.raised (some ⟨80, 100, some "01"⟩) [] ∧
    total_history (Except.ok [(1 : Nat)]) false (some []) =
      RunResult.raised (some []) [Event.render "graph.png"] ∧
    prediction (Except.ok [(2 : Nat)]) false (some []) =
      RunResult.raised (some []) [Event.render "graph_prodiction.png"] :=
  send_failure_escapes Nat sampleNew sampleOld [] [CaseVal.int 130] 130 "02"
    ⟨80, 100, some "01"⟩ [1] [] [2] []
    (by decide) (by decide) (by decide) (by decide) (by decide) (by decide)

